import Mathlib

/-!
Shallow embedding of squangle's SQL query builder
(`src/squangle/mysql_client/Query.cpp`): the `QueryArgument` tagged union,
the helper encoders (`appendComment`, `appendColumnTableName`,
`appendEscapedString`, `appendValue`, `appendValueClauses`), the template
renderer `Query::render`, and the batch renderers `Query::renderMultiQuery`
and `MultiQuery::renderQuery`.

Modelling choices:
* `folly::fbstring` byte strings are Lean `String`s; offsets are `Nat`.
* The `MYSQL*` connection is modelled as `Option (String → String)`: the
  only use the source makes of it is `mysql_real_escape_string`
  (an external primitive, out of scope per the spec), abstracted as the
  escaping function; `none` is the connectionless passthrough path.
* The `double` variant's payload is represented by its decimal display
  string: the only observation the source ever makes of a double is
  `folly::to<fbstring>` (its display string), so this avoids modelling
  binary floating point while keeping every rendering path faithful.
* The `Query` variant of the union (`RawStatement`) carries no payload:
  no code path in `Query.cpp` ever inspects the contained query; it is
  only type-tested (`isQuery`) and rejected by `FbStringConverter`.
* C++ exceptions become `Except RenderError`; each `parseError` /
  `throw` call site gets its own constructor.
-/

namespace Squangle

/-- Connection handle, abstracted to the escaping capability it provides
(`mysql_real_escape_string` over the raw bytes). -/
abbrev MYSQL := String → String

/-- The tagged-union argument type (`QueryArgument` in the source, a
`boost::variant` over nullptr, bool, int64, double, fbstring, Query,
vector of arguments and vector of (fbstring, argument) pairs). -/
inductive QueryArgument where
  | null
  | bool (b : Bool)
  | int (i : Int)
  | double (display : String)
  | string (s : String)
  | query
  | list (xs : List QueryArgument)
  | pairList (kvs : List (String × QueryArgument))

/-- Modelled from the spec: `QueryArgument::typeName` is declared in
`Query.h`, which is not part of `src/`; it names the active variant of the
tagged union and is used only inside error messages. -/
def QueryArgument.typeName : QueryArgument → String
  | .null => "null"
  | .bool _ => "bool"
  | .int _ => "int"
  | .double _ => "double"
  | .string _ => "string"
  | .query => "query"
  | .list _ => "list"
  | .pairList _ => "pairlist"

/-- `QueryArgument::isNull` (typeid test against `std::nullptr_t`). -/
def QueryArgument.isNull : QueryArgument → Bool
  | .null => true
  | _ => false

/-- `QueryArgument::asString` via `FbStringConverter`: bool, int64 and
double are converted through `folly::to<fbstring>`, fbstring is returned
as-is; every other variant throws
"Only allowed type conversions are Int, Double, Bool and String". -/
def QueryArgument.asString : QueryArgument → Option String
  | .bool b => some (if b then "1" else "0")
  | .int i => some (toString i)
  | .double d => some d
  | .string s => some s
  | _ => none

/-- One constructor per distinct throw site in `Query.cpp`. -/
inductive RenderError where
  | dangerousCharacter (offset : Nat)
  | unexpectedEndOfString (offset : Nat)
  | tooFewParameters (offset : Nat)
  | tooManyParameters (offset : Nat)
  | unknownSpecifier (offset : Nat)
  | unfinishedPercent (offset : Nat)
  | specifierTypeMismatch (offset : Nat) (specifier : Char) (actual : String)
  | expectedEqualsSpecifier (offset : Nat)
  | subqueryNotAllowed (offset : Nat)
  | rowLengthMismatch (offset : Nat)
  | objectExpected (offset : Nat) (actual : String)
  | expectedList (offset : Nat)
  | unsupportedConversion
  | badVariantAccess
  deriving DecidableEq

/-- `appendEscapedString`: with no connection the bytes are copied through
unmodified (test-only passthrough); with a connection they go through the
connection's escaping routine. -/
def appendEscapedString (conn : Option MYSQL) (value : String) : String :=
  match conn with
  | none => value
  | some esc => esc value

/-- Inner loop of `appendColumnTableName`: copy chars, doubling every
backtick. -/
def backtickEscape : List Char → List Char
  | [] => []
  | c :: rest =>
    if c = '\x60' then c :: c :: backtickEscape rest
    else c :: backtickEscape rest

/-- Identifier quoting as performed by `appendColumnTableName` on a
string: wrap in backticks, doubling every embedded backtick. -/
def quoteIdentifier (s : String) : String :=
  ⟨'\x60' :: (backtickEscape s.data ++ ['\x60'])⟩

/-- `appendColumnTableName`: a string is wrapped in backticks with every
embedded backtick doubled; any other variant is emitted via `asString`
(which throws for variants with no display string). -/
def appendColumnTableName (d : QueryArgument) : Except RenderError String :=
  match d with
  | .string s => .ok (quoteIdentifier s)
  | d =>
    match d.asString with
    | some v => .ok v
    | none => .error .unsupportedConversion

/-- Replacement text for `/*` inside a comment value: `" / * "`. -/
def spacedOpen : List Char := [' ', '/', ' ', '*', ' ']

/-- Replacement text for `*/` inside a comment value: `" * / "`. -/
def spacedClose : List Char := [' ', '*', ' ', '/', ' ']

/-- `boost::replace_all` specialised to a two-byte pattern `[a, b]` (the
source only uses it with the patterns `/*` and `*/`): non-overlapping
occurrences are replaced left to right, and the search resumes after the
replacement text, which is never rescanned. -/
def replacePair (a b : Char) (rep : List Char) : List Char → List Char
  | [] => []
  | [c] => [c]
  | c :: d :: rest =>
    if c = a ∧ d = b then rep ++ replacePair a b rep rest
    else c :: replacePair a b rep (d :: rest)

/-- Body transformation of `appendComment`: replace all `/*` with
`" / * "`, then all `*/` with `" * / "`, in that order. -/
def commentEscape (s : String) : String :=
  ⟨replacePair '*' '/' spacedClose (replacePair '/' '*' spacedOpen s.data)⟩

/-- `appendComment`: converts the value with `asString` (throwing for
variants with no display string) and spaces out comment delimiters. -/
def appendComment (d : QueryArgument) : Except RenderError String :=
  match d.asString with
  | some s => .ok (commentEscape s)
  | none => .error .unsupportedConversion

/-- `Query::appendValue`: type-checked scalar substitution.  A string
requires specifier `s` (or the internal wildcard `v`) and is emitted
escaped and wrapped in double quotes; an int requires `d`, a double
requires `f`, both emitted via their display string; null is accepted
under any specifier and emits `NULL`; every other variant raises the
format-string mismatch error carrying its `typeName`. -/
def appendValue (conn : Option MYSQL) (offset : Nat) (type : Char)
    (d : QueryArgument) : Except RenderError String :=
  match d with
  | .string s =>
    if type ≠ 's' ∧ type ≠ 'v' then
      .error (.specifierTypeMismatch offset type "string")
    else .ok ("\"" ++ appendEscapedString conn s ++ "\"")
  | .int i =>
    if type ≠ 'd' ∧ type ≠ 'v' then
      .error (.specifierTypeMismatch offset type "int")
    else .ok (toString i)
  | .double r =>
    if type ≠ 'f' ∧ type ≠ 'v' then
      .error (.specifierTypeMismatch offset type "double")
    else .ok r
  | .null => .ok "NULL"
  | d => .error (.specifierTypeMismatch offset type d.typeName)

/-- One `key_value` iteration of `Query::appendValueClauses`: the key is
backtick-quoted; a null value renders `" IS NULL"` unless the separator
starts with a comma (the `%U` SET-clause case), otherwise `" = "` followed
by wildcard scalar substitution. -/
def appendClausePair (conn : Option MYSQL) (offset : Nat) (sep : String)
    (kv : String × QueryArgument) : Except RenderError String :=
  match appendColumnTableName (.string kv.1) with
  | .error e => .error e
  | .ok keyS =>
    if kv.2.isNull ∧ sep.data.head? ≠ some ',' then .ok (keyS ++ " IS NULL")
    else
      match appendValue conn offset 'v' kv.2 with
      | .error e => .error e
      | .ok v => .ok (keyS ++ " = " ++ v)

/-- Tail of the pair loop in `Query::appendValueClauses`: every pair after
the first is prefixed with the separator. -/
def renderPairsRest (conn : Option MYSQL) (offset : Nat) (sep : String) :
    List (String × QueryArgument) → Except RenderError String
  | [] => .ok ""
  | kv :: kvs =>
    match appendClausePair conn offset sep kv with
    | .error e => .error e
    | .ok piece =>
      match renderPairsRest conn offset sep kvs with
      | .error e => .error e
      | .ok tail => .ok (sep ++ piece ++ tail)

/-- `Query::appendValueClauses`: requires a pair list (else
"object expected for %Lx"), then joins the `key = value` clauses with the
given separator. -/
def appendValueClauses (conn : Option MYSQL) (offset : Nat) (sep : String)
    (param : QueryArgument) : Except RenderError String :=
  match param with
  | .pairList kvs =>
    match kvs with
    | [] => .ok ""
    | kv :: rest =>
      match appendClausePair conn offset sep kv with
      | .error e => .error e
      | .ok piece =>
        match renderPairsRest conn offset sep rest with
        | .error e => .error e
        | .ok tail => .ok (piece ++ tail)
  | param => .error (.objectExpected offset param.typeName)

/-- `boost::get<std::vector<QueryArgument>>`: throws `bad_get` unless the
active variant is a list. -/
def getListE : QueryArgument → Except RenderError (List QueryArgument)
  | .list xs => .ok xs
  | _ => .error .badVariantAccess

/-- Tail of one `%V` row: columns after the first are prefixed with
`", "`; each is wildcard scalar substitution; the count of rendered
columns is returned alongside. -/
def renderVRowRest (conn : Option MYSQL) (offset : Nat) :
    List QueryArgument → Except RenderError (String × Nat)
  | [] => .ok ("", 0)
  | col :: cols =>
    match appendValue conn offset 'v' col with
    | .error e => .error e
    | .ok piece =>
      match renderVRowRest conn offset cols with
      | .error e => .error e
      | .ok (tail, n) => .ok (", " ++ piece ++ tail, n + 1)

/-- One `%V` row body (without the surrounding parentheses): columns
joined by `", "`, together with the column count. -/
def renderVRow (conn : Option MYSQL) (offset : Nat) :
    List QueryArgument → Except RenderError (String × Nat)
  | [] => .ok ("", 0)
  | col :: cols =>
    match appendValue conn offset 'v' col with
    | .error e => .error e
    | .ok piece =>
      match renderVRowRest conn offset cols with
      | .error e => .error e
      | .ok (tail, n) => .ok (piece ++ tail, n + 1)

/-- Rows of `%V` after the first: each must be a list (else `bad_get`),
is rendered `", (…)"`, and — after it has been fully rendered — its
column count is compared against the first row's. -/
def renderVRows (conn : Option MYSQL) (offset : Nat) (rowLen : Nat) :
    List QueryArgument → Except RenderError String
  | [] => .ok ""
  | row :: rows =>
    match getListE row with
    | .error e => .error e
    | .ok cols =>
      match renderVRow conn offset cols with
      | .error e => .error e
      | .ok (s, n) =>
        if n ≠ rowLen then .error (.rowLengthMismatch offset)
        else
          match renderVRows conn offset rowLen rows with
          | .error e => .error e
          | .ok tail => .ok (", (" ++ s ++ ")" ++ tail)

/-- The `%V` branch of `Query::render`: a subquery argument is rejected,
the argument and each row are fetched as lists (`bad_get` otherwise), the
first row fixes the expected column count, and later rows of a different
count fail with the row-length mismatch error. -/
def renderVList (conn : Option MYSQL) (offset : Nat)
    (param : QueryArgument) : Except RenderError String :=
  match param with
  | .query => .error (.subqueryNotAllowed offset)
  | param =>
    match getListE param with
    | .error e => .error e
    | .ok rows =>
      match rows with
      | [] => .ok ""
      | row :: rest =>
        match getListE row with
        | .error e => .error e
        | .ok cols =>
          match renderVRow conn offset cols with
          | .error e => .error e
          | .ok (s, n) =>
            match renderVRows conn offset n rest with
            | .error e => .error e
            | .ok tail => .ok ("(" ++ s ++ ")" ++ tail)

/-- One element of a plain `%L` list: identifier-quoted when the trailing
letter is `C`, otherwise type-checked scalar substitution under that
letter. -/
def renderLItem (conn : Option MYSQL) (offset : Nat) (t : Char)
    (val : QueryArgument) : Except RenderError String :=
  if t = 'C' then appendColumnTableName val
  else appendValue conn offset t val

/-- Tail of the plain `%L` loop: elements after the first are prefixed
with `", "`. -/
def renderLRest (conn : Option MYSQL) (offset : Nat) (t : Char) :
    List QueryArgument → Except RenderError String
  | [] => .ok ""
  | v :: vs =>
    match renderLItem conn offset t v with
    | .error e => .error e
    | .ok piece =>
      match renderLRest conn offset t vs with
      | .error e => .error e
      | .ok tail => .ok (", " ++ piece ++ tail)

/-- The plain (non-`O`/`A`) `%L` list body: elements joined by `", "`. -/
def renderLList (conn : Option MYSQL) (offset : Nat) (t : Char) :
    List QueryArgument → Except RenderError String
  | [] => .ok ""
  | v :: vs =>
    match renderLItem conn offset t v with
    | .error e => .error e
    | .ok piece =>
      match renderLRest conn offset t vs with
      | .error e => .error e
      | .ok tail => .ok (piece ++ tail)

/-- The dangerous-character pre-check of `Query::render`:
`find_first_of(";'\"`")`, returning the first offset holding one of the
four structural bytes. -/
def findDangerous (idx : Nat) : List Char → Option Nat
  | [] => none
  | c :: rest =>
    if c = ';' ∨ c = '\x27' ∨ c = '"' ∨ c = '\x60' then some idx
    else findDangerous (idx + 1) rest

/-- The main scan loop of `Query::render` over the template bytes.
`idx` is the offset of the head of the remaining template; the
`after_percent` flag of the source is captured by matching two characters
at once.  Specifier dispatch, the argument-exhaustion check (which runs
before the specifier letter is examined), the `advance` calls of `%=` and
`%L`, and the trailing too-many-parameters check (offset 0) all follow
the source line by line. -/
def scan (conn : Option MYSQL) :
    List Char → Nat → List QueryArgument → Except RenderError String
  | [], _, params =>
    if params.isEmpty then .ok "" else .error (.tooManyParameters 0)
  | c :: rest, idx, params =>
    if c = '%' then
      match rest with
      | [] => .error (.unfinishedPercent (idx + 1))
      | c2 :: rest2 =>
        if c2 = '%' then
          match scan conn rest2 (idx + 2) params with
          | .error e => .error e
          | .ok tail => .ok ("%" ++ tail)
        else
          match params with
          | [] => .error (.tooFewParameters (idx + 1))
          | param :: params2 =>
            if c2 = 'd' ∨ c2 = 's' ∨ c2 = 'f' then
              match appendValue conn (idx + 1) c2 param with
              | .error e => .error e
              | .ok piece =>
                match scan conn rest2 (idx + 2) params2 with
                | .error e => .error e
                | .ok tail => .ok (piece ++ tail)
            else if c2 = 'K' then
              match appendComment param with
              | .error e => .error e
              | .ok piece =>
                match scan conn rest2 (idx + 2) params2 with
                | .error e => .error e
                | .ok tail => .ok ("/*" ++ piece ++ "*/" ++ tail)
            else if c2 = 'T' ∨ c2 = 'C' then
              match appendColumnTableName param with
              | .error e => .error e
              | .ok piece =>
                match scan conn rest2 (idx + 2) params2 with
                | .error e => .error e
                | .ok tail => .ok (piece ++ tail)
            else if c2 = '=' then
              match rest2 with
              | [] => .error (.unexpectedEndOfString (idx + 1))
              | t :: rest3 =>
                if t ≠ 'd' ∧ t ≠ 's' ∧ t ≠ 'f' then
                  .error (.expectedEqualsSpecifier (idx + 2))
                else if param.isNull then
                  match scan conn rest3 (idx + 3) params2 with
                  | .error e => .error e
                  | .ok tail => .ok (" IS NULL" ++ tail)
                else
                  match appendValue conn (idx + 2) t param with
                  | .error e => .error e
                  | .ok piece =>
                    match scan conn rest3 (idx + 3) params2 with
                    | .error e => .error e
                    | .ok tail => .ok (" = " ++ piece ++ tail)
            else if c2 = 'V' then
              match renderVList conn (idx + 1) param with
              | .error e => .error e
              | .ok piece =>
                match scan conn rest2 (idx + 2) params2 with
                | .error e => .error e
                | .ok tail => .ok (piece ++ tail)
            else if c2 = 'L' then
              match rest2 with
              | [] => .error (.unexpectedEndOfString (idx + 1))
              | t :: rest3 =>
                if t = 'O' ∨ t = 'A' then
                  match appendValueClauses conn (idx + 2)
                      (if t = 'O' then " OR " else " AND ") param with
                  | .error e => .error e
                  | .ok piece =>
                    match scan conn rest3 (idx + 3) params2 with
                    | .error e => .error e
                    | .ok tail => .ok ("(" ++ piece ++ ")" ++ tail)
                else
                  match param with
                  | .list vals =>
                    match renderLList conn (idx + 2) t vals with
                    | .error e => .error e
                    | .ok piece =>
                      match scan conn rest3 (idx + 3) params2 with
                      | .error e => .error e
                      | .ok tail => .ok (piece ++ tail)
                  | _ => .error (.expectedList (idx + 2))
            else if c2 = 'U' then
              match appendValueClauses conn (idx + 1) ", " param with
              | .error e => .error e
              | .ok piece =>
                match scan conn rest2 (idx + 2) params2 with
                | .error e => .error e
                | .ok tail => .ok (piece ++ tail)
            else if c2 = 'W' then
              match appendValueClauses conn (idx + 1) " AND " param with
              | .error e => .error e
              | .ok piece =>
                match scan conn rest2 (idx + 2) params2 with
                | .error e => .error e
                | .ok tail => .ok (piece ++ tail)
            else if c2 = 'Q' then
              match param.asString with
              | none => .error .unsupportedConversion
              | some v =>
                match scan conn rest2 (idx + 2) params2 with
                | .error e => .error e
                | .ok tail => .ok (v ++ tail)
            else .error (.unknownSpecifier (idx + 1))
    else
      match scan conn rest (idx + 1) params with
      | .error e => .error e
      | .ok tail => .ok (String.singleton c ++ tail)

/-- `Query`: immutable template text, the unsafe-query flag, and the
default argument list (`query_text_`, `unsafe_query_`, `params_`). -/
structure Query where
  query_text : String
  isUnsafe : Bool
  params : List QueryArgument

/-- `Query::render(MYSQL*, const vector<QueryArgument>&)`: unsafe queries
return the template text unchanged; otherwise the dangerous-character
pre-check runs, then the main scan. -/
def Query.renderWith (q : Query) (conn : Option MYSQL)
    (params : List QueryArgument) : Except RenderError String :=
  if q.isUnsafe then .ok q.query_text
  else
    match findDangerous 0 q.query_text.data with
    | some off => .error (.dangerousCharacter off)
    | none => scan conn q.query_text.data 0 params

/-- `Query::render(MYSQL*)`: renders against the query's own argument
list. -/
def Query.render (q : Query) (conn : Option MYSQL) :
    Except RenderError String :=
  q.renderWith conn q.params

/-- `Query::renderInsecure`: rendering with no connection (passthrough
escaping). -/
def Query.renderInsecure (q : Query) : Except RenderError String :=
  q.render none

/-- Loop body of `Query::renderMultiQuery`: a `";"` separator is appended
only when the output accumulated so far is nonempty, then the query's own
render is appended. -/
def renderMultiQueryAux (conn : Option MYSQL) (ret : String) :
    List Query → Except RenderError String
  | [] => .ok ret
  | q :: qs =>
    match q.render conn with
    | .error e => .error e
    | .ok r =>
      renderMultiQueryAux conn
        ((if ret.data.isEmpty then ret else ret ++ ";") ++ r) qs

/-- `Query::renderMultiQuery`: render each query and join. -/
def Query.renderMultiQuery (conn : Option MYSQL) (queries : List Query) :
    Except RenderError String :=
  renderMultiQueryAux conn "" queries

/-- `MultiQuery`: an ordered sequence of queries. -/
structure MultiQuery where
  queries : List Query

/-- `MultiQuery::renderQuery`: a batch holding exactly one unsafe query
returns that query's raw template text; otherwise the batch is rendered
through `Query::renderMultiQuery`. -/
def MultiQuery.renderQuery (m : MultiQuery) (conn : Option MYSQL) :
    Except RenderError String :=
  match m.queries with
  | [q] =>
    if q.isUnsafe then .ok q.query_text
    else Query.renderMultiQuery conn [q]
  | qs => Query.renderMultiQuery conn qs

/-! Specification-side definitions used only in theorem statements. -/

/-- Whether the two-byte pattern `[a, b]` occurs (as adjacent characters)
in a character list. -/
def containsPair (a b : Char) : List Char → Bool
  | c :: d :: rest =>
    if c = a ∧ d = b then true else containsPair a b (d :: rest)
  | _ => false

/-- Suffix of a semicolon join: every element prefixed by `";"`. -/
def joinRest : List String → String
  | [] => ""
  | r :: rs => ";" ++ r ++ joinRest rs

/-- The spec's batch-join formula: elements joined by a `";"` separator,
with no trailing separator. -/
def joinSemi : List String → String
  | [] => ""
  | [r] => r
  | r :: rs => r ++ ";" ++ joinSemi rs

/-! Helper lemmas. -/

theorem joinSemi_cons (r : String) (rs : List String) :
    joinSemi (r :: rs) = r ++ joinRest rs := by
  induction rs generalizing r with
  | nil => simp [joinSemi, joinRest]
  | cons r2 rs ih =>
    simp [joinSemi, joinRest, ih r2, String.append_assoc]

theorem findDangerous_some_of_mem (l : List Char) (idx : Nat)
    (h : ∃ c ∈ l, c = ';' ∨ c = '\x27' ∨ c = '"' ∨ c = '\x60') :
    ∃ off, findDangerous idx l = some off := by
  induction l generalizing idx with
  | nil => simp at h
  | cons c rest ih =>
    by_cases hc : c = ';' ∨ c = '\x27' ∨ c = '"' ∨ c = '\x60'
    · exact ⟨idx, by simp [findDangerous, hc]⟩
    · obtain ⟨d, hd, hdang⟩ := h
      rcases List.mem_cons.mp hd with rfl | hd2
      · exact absurd hdang hc
      · obtain ⟨off, hoff⟩ := ih (idx + 1) ⟨d, hd2, hdang⟩
        exact ⟨off, by simp [findDangerous, hc, hoff]⟩

theorem backtickEscape_count (l : List Char) :
    (backtickEscape l).count '\x60' = 2 * l.count '\x60' := by
  induction l with
  | nil => simp [backtickEscape]
  | cons c rest ih =>
    by_cases hc : c = '\x60'
    · subst hc
      simp [backtickEscape, List.count_cons, ih]
      omega
    · simp [backtickEscape, hc, List.count_cons, ih]

theorem replacePair_close_head (d : Char) (rest : List Char) :
    (replacePair '*' '/' spacedClose (d :: rest)).head? = some d ∨
    (replacePair '*' '/' spacedClose (d :: rest)).head? = some ' ' := by
  cases rest with
  | nil => left; simp [replacePair]
  | cons e rest2 =>
    by_cases h : d = '*' ∧ e = '/'
    · right; simp [replacePair, h, spacedClose]
    · left; simp [replacePair, h]

theorem replacePair_close_no_pair :
    ∀ l : List Char,
      containsPair '*' '/' (replacePair '*' '/' spacedClose l) = false
  | [] => by simp [replacePair, containsPair]
  | [c] => by simp [replacePair, containsPair]
  | c :: d :: rest => by
    by_cases h : c = '*' ∧ d = '/'
    · have ih := replacePair_close_no_pair rest
      have hrw : replacePair '*' '/' spacedClose (c :: d :: rest) =
          spacedClose ++ replacePair '*' '/' spacedClose rest := by
        simp [replacePair, h]
      rw [hrw]
      cases hR : replacePair '*' '/' spacedClose rest with
      | nil => decide
      | cons x xs =>
        have ih2 : containsPair '*' '/' (x :: xs) = false := hR ▸ ih
        simp +decide [spacedClose, containsPair, ih2]
    · have ih := replacePair_close_no_pair (d :: rest)
      have hd := replacePair_close_head d rest
      have hrw : replacePair '*' '/' spacedClose (c :: d :: rest) =
          c :: replacePair '*' '/' spacedClose (d :: rest) := by
        simp [replacePair, h]
      rw [hrw]
      cases hR : replacePair '*' '/' spacedClose (d :: rest) with
      | nil => simp [containsPair]
      | cons x xs =>
        have ih2 : containsPair '*' '/' (x :: xs) = false := hR ▸ ih
        rw [hR] at hd
        simp only [List.head?] at hd
        rcases hd with hd | hd
        · injection hd with hx
          subst hx
          simp [containsPair, ih2, h]
        · injection hd with hx
          subst hx
          simp +decide [containsPair, ih2]

theorem renderMultiQueryAux_ok (conn : Option MYSQL) {qs : List Query}
    {rs : List String}
    (h : List.Forall₂ (fun q r => Query.render q conn = .ok r) qs rs) :
    ∀ ret : String, ret.data ≠ [] →
    renderMultiQueryAux conn ret qs = .ok (ret ++ joinRest rs) := by
  induction h with
  | nil => intro ret hne; simp [renderMultiQueryAux, joinRest]
  | @cons q r qs2 rs2 hq hrest ih =>
    intro ret hne
    have hEmpty : ret.data.isEmpty = false := by
      simp [List.isEmpty_iff, hne]
    simp only [renderMultiQueryAux, hq, hEmpty, Bool.false_eq_true,
      if_false]
    rw [ih (ret ++ ";" ++ r) (by simp [String.data_append])]
    simp [joinRest, String.append_assoc]

/-! The claims. -/

/-- Claim C1: for every scalar argument rendered by `%d`, `%s` or `%f`,
an Int under `%d` and a Double under `%f` are emitted via their display
string; a Str under `%s` is emitted wrapped in double quotes with its
bytes passed through the escaper, and with the no-connection passthrough
escaper the bytes appear verbatim between the wrapping quotes; a Null
argument is accepted under any of the three specifiers and emits
`NULL`. -/
theorem c1_scalar_substitution :
    (∀ (conn : Option MYSQL) (i : Int),
      Query.render ⟨"%d", false, [.int i]⟩ conn = .ok (toString i)) ∧
    (∀ (conn : Option MYSQL) (r : String),
      Query.render ⟨"%f", false, [.double r]⟩ conn = .ok r) ∧
    (∀ (esc : MYSQL) (s : String),
      Query.render ⟨"%s", false, [.string s]⟩ (some esc) =
        .ok ("\"" ++ esc s ++ "\"")) ∧
    (∀ (s : String),
      Query.render ⟨"%s", false, [.string s]⟩ none =
        .ok ("\"" ++ s ++ "\"")) ∧
    (∀ (conn : Option MYSQL) (c : Char), (c = 'd' ∨ c = 's' ∨ c = 'f') →
      Query.render ⟨⟨['%', c]⟩, false, [.null]⟩ conn = .ok "NULL") := by
  refine ⟨?_, ?_, ?_, ?_, ?_⟩
  · intro conn i
    simp +decide [Query.render, Query.renderWith, findDangerous, scan,
      appendValue, appendEscapedString]
  · intro conn r
    simp +decide [Query.render, Query.renderWith, findDangerous, scan,
      appendValue, appendEscapedString]
  · intro esc s
    simp +decide [Query.render, Query.renderWith, findDangerous, scan,
      appendValue, appendEscapedString]
  · intro s
    simp +decide [Query.render, Query.renderWith, findDangerous, scan,
      appendValue, appendEscapedString]
  · intro conn c h
    rcases h with rfl | rfl | rfl <;>
      simp +decide [Query.render, Query.renderWith, findDangerous, scan,
        appendValue]

/-- Witness for C1 at the concrete input `%d` with a Null argument. -/
theorem c1_witness :
    Query.render ⟨⟨['%', 'd']⟩, false, [.null]⟩ none = .ok "NULL" :=
  c1_scalar_substitution.2.2.2.2 none 'd' (Or.inl rfl)

/-- Claim C2: a Statement marked unsafe renders to its template text
unchanged, for any connection and any argument list (hence rendering any
number of times yields byte-identical output and consumes no argument);
a Statement not marked unsafe whose template contains one of the bytes
`;`, `'`, `"` or a backtick fails with the dangerous-character error, no
output being produced. -/
theorem c2_unsafe_and_dangerous :
    (∀ (q : Query) (conn : Option MYSQL) (params : List QueryArgument),
      q.isUnsafe = true → q.renderWith conn params = .ok q.query_text) ∧
    (∀ (q : Query) (conn : Option MYSQL) (params : List QueryArgument),
      q.isUnsafe = false →
      (∃ c ∈ q.query_text.data,
        c = ';' ∨ c = '\x27' ∨ c = '"' ∨ c = '\x60') →
      ∃ off, q.renderWith conn params =
        .error (.dangerousCharacter off)) := by
  constructor
  · intro q conn params hq
    simp [Query.renderWith, hq]
  · intro q conn params hq hdang
    obtain ⟨off, hoff⟩ := findDangerous_some_of_mem q.query_text.data 0
      hdang
    exact ⟨off, by simp [Query.renderWith, hq, hoff]⟩

/-- Witness for C2 at the template `"x;"`, once unsafe and once not. -/
theorem c2_witness :
    (Query.renderWith ⟨"x;", true, []⟩ none [] = .ok "x;") ∧
    (∃ off, Query.renderWith ⟨"x;", false, []⟩ none [] =
      .error (.dangerousCharacter off)) :=
  ⟨c2_unsafe_and_dangerous.1 ⟨"x;", true, []⟩ none [] rfl,
   c2_unsafe_and_dangerous.2 ⟨"x;", false, []⟩ none [] rfl
     ⟨';', by decide, by decide⟩⟩

/-- Claim C3 (amended): `%V` renders each inner list as a parenthesized
row with elements joined by `", "`, rows joined by `", "` (the source
appends `", "` and `"("` for every row after the first); rows whose
column count differs from the first row's fail with the row-length
mismatch error; row elements accept the scalar kinds Null, Int, Double
and Str without specifier-type checking — but, contrary to the claim as
stated, a Bool element is rejected (see `c3_counterexample`). -/
theorem c3_values_matrix_amended :
    (∀ (conn : Option MYSQL) (a b c d : Int),
      Query.render ⟨"%V", false,
        [.list [.list [.int a, .int b], .list [.int c, .int d]]]⟩ conn =
        .ok ("(" ++ toString a ++ ", " ++ toString b ++ ")" ++ ", (" ++
          toString c ++ ", " ++ toString d ++ ")")) ∧
    (∀ conn : Option MYSQL,
      Query.render ⟨"%V", false,
        [.list [.list [.int 1, .int 2], .list [.int 3]]]⟩ conn =
        .error (.rowLengthMismatch 1)) ∧
    (∀ (i : Int) (r s : String),
      Query.render ⟨"%V", false,
        [.list [.list [.null, .int i, .double r, .string s]]]⟩ none =
        .ok ("(" ++ "NULL" ++ ", " ++ toString i ++ ", " ++ r ++ ", " ++
          "\"" ++ s ++ "\"" ++ ")")) := by
  refine ⟨?_, ?_, ?_⟩
  · intro conn a b c d
    simp +decide [Query.render, Query.renderWith, findDangerous, scan,
      renderVList, getListE, renderVRow, renderVRowRest, renderVRows,
      appendValue, String.append_assoc]
    apply String.ext
    simp [String.data_append, List.append_assoc]
  · intro conn
    exact rfl
  · intro i r s
    simp +decide [Query.render, Query.renderWith, findDangerous, scan,
      renderVList, getListE, renderVRow, renderVRowRest, renderVRows,
      appendValue, appendEscapedString, String.append_assoc]
    apply String.ext
    simp [String.data_append, List.append_assoc]

/-- Counterexample to C3 as stated: a Bool row element is not accepted —
`appendValue` has no Bool branch, so the wildcard check falls through to
the format-string type-mismatch error. -/
theorem c3_counterexample :
    Query.render ⟨"%V", false, [.list [.list [.bool true]]]⟩ none =
      .error (.specifierTypeMismatch 1 'v'
        (QueryArgument.bool true).typeName) := rfl

/-- Claim C4 (amended): under `%T`/`%C` a Str argument is emitted wrapped
in backticks with every embedded backtick doubled (count exactly
doubles, and the spec's own example holds); contrary to the claim as
stated, a non-Str argument is not rejected with a specifier-type
mismatch: Int (and Double, Bool) arguments are emitted via their display
string unquoted, and arguments with no display string (such as Null)
fail with the conversion error instead. -/
theorem c4_identifier_quoting_amended :
    (∀ (conn : Option MYSQL) (s : String),
      Query.render ⟨"%T", false, [.string s]⟩ conn =
        .ok (quoteIdentifier s) ∧
      Query.render ⟨"%C", false, [.string s]⟩ conn =
        .ok (quoteIdentifier s)) ∧
    quoteIdentifier "a`b" = "`a``b`" ∧
    (∀ l : List Char,
      (backtickEscape l).count '\x60' = 2 * l.count '\x60') ∧
    (∀ (conn : Option MYSQL) (i : Int),
      Query.render ⟨"%T", false, [.int i]⟩ conn = .ok (toString i)) ∧
    (∀ conn : Option MYSQL,
      Query.render ⟨"%T", false, [.null]⟩ conn =
        .error .unsupportedConversion) := by
  refine ⟨?_, rfl, backtickEscape_count, ?_, ?_⟩
  · intro conn s
    constructor <;>
      simp +decide [Query.render, Query.renderWith, findDangerous, scan,
        appendColumnTableName]
  · intro conn i
    simp +decide [Query.render, Query.renderWith, findDangerous, scan,
      appendColumnTableName, QueryArgument.asString]
  · intro conn
    exact rfl

/-- Counterexample to C4 as stated: an Int under `%T` is emitted via its
display string rather than rejected with a specifier-type mismatch. -/
theorem c4_counterexample :
    Query.render ⟨"%T", false, [.int 5]⟩ none = .ok "5" := rfl

/-- Claim C5: `%U` joins `key = value` pairs with `", "` and a Null value
still renders as `` `key` = NULL `` (never `IS NULL`); `%W` joins pairs
with `" AND "` and a Null value renders as `` `key` IS NULL ``; the
spec's concrete example renders as stated. -/
theorem c5_set_where_clauses :
    (∀ conn : Option MYSQL,
      Query.render ⟨"%U", false,
        [.pairList [("a", .int 1), ("b", .null)]]⟩ conn =
        .ok "`a` = 1, `b` = NULL" ∧
      Query.render ⟨"%W", false,
        [.pairList [("a", .int 1), ("b", .null)]]⟩ conn =
        .ok "`a` = 1 AND `b` IS NULL") ∧
    (∀ (conn : Option MYSQL) (k : String),
      Query.render ⟨"%U", false, [.pairList [(k, .null)]]⟩ conn =
        .ok (quoteIdentifier k ++ " = " ++ "NULL") ∧
      Query.render ⟨"%W", false, [.pairList [(k, .null)]]⟩ conn =
        .ok (quoteIdentifier k ++ " IS NULL")) ∧
    (∀ (conn : Option MYSQL) (k1 k2 : String) (i j : Int),
      Query.render ⟨"%U", false,
        [.pairList [(k1, .int i), (k2, .int j)]]⟩ conn =
        .ok (quoteIdentifier k1 ++ " = " ++ toString i ++ ", " ++
          quoteIdentifier k2 ++ " = " ++ toString j) ∧
      Query.render ⟨"%W", false,
        [.pairList [(k1, .int i), (k2, .int j)]]⟩ conn =
        .ok (quoteIdentifier k1 ++ " = " ++ toString i ++ " AND " ++
          quoteIdentifier k2 ++ " = " ++ toString j)) := by
  refine ⟨fun conn => ⟨rfl, rfl⟩, ?_, ?_⟩
  · intro conn k
    constructor <;>
      simp +decide [Query.render, Query.renderWith, findDangerous, scan,
        appendValueClauses, appendClausePair, renderPairsRest,
        appendValue, appendColumnTableName, QueryArgument.isNull,
        String.append_assoc]
  · intro conn k1 k2 i j
    constructor <;>
      simp +decide [Query.render, Query.renderWith, findDangerous, scan,
        appendValueClauses, appendClausePair, renderPairsRest,
        appendValue, appendColumnTableName, QueryArgument.isNull,
        String.append_assoc]

/-- Claim C6: for every `%K` argument whose value has a display string,
the output wraps that string — with every `/*` and `*/` replaced by
spaced-out variants — in `/*` and `*/`, and the substring strictly
between the opening `/*` and the closing `*/` contains no literal
occurrence of `*/`. -/
theorem c6_comment_safe :
    ∀ (v : QueryArgument) (s : String) (conn : Option MYSQL),
      v.asString = some s →
      Query.render ⟨"%K", false, [v]⟩ conn =
        .ok ("/*" ++ commentEscape s ++ "*/") ∧
      containsPair '*' '/' (commentEscape s).data = false := by
  intro v s conn h
  constructor
  · simp +decide [Query.render, Query.renderWith, findDangerous, scan,
      appendComment, h, String.append_assoc]
  · simpa [commentEscape] using
      replacePair_close_no_pair (replacePair '/' '*' spacedOpen s.data)

/-- Witness for C6 at a value containing a literal `*/`. -/
theorem c6_witness :
    Query.render ⟨"%K", false, [.string "a*/b"]⟩ none =
      .ok ("/*" ++ commentEscape "a*/b" ++ "*/") ∧
    containsPair '*' '/' (commentEscape "a*/b").data = false :=
  c6_comment_safe (.string "a*/b") "a*/b" none rfl

/-- Claim C7 (amended): rendering a batch `s1 :: rest` whose renders all
succeed yields the renders joined by `";"` with no trailing separator,
provided `render s1` is nonempty (the source inserts `";"` only when the
output accumulated so far is nonempty, so separators after a prefix of
empty renders are dropped — see `c7_counterexample`); a batch of exactly
one unsafe statement yields that statement's verbatim template text with
no separator. -/
theorem c7_batch_join_amended :
    (∀ (conn : Option MYSQL) (q1 : Query) (r1 : String) (qs : List Query)
        (rs : List String),
      q1.render conn = .ok r1 → r1 ≠ "" →
      List.Forall₂ (fun q r => Query.render q conn = .ok r) qs rs →
      Query.renderMultiQuery conn (q1 :: qs) =
        .ok (joinSemi (r1 :: rs))) ∧
    (∀ (q : Query) (conn : Option MYSQL), q.isUnsafe = true →
      MultiQuery.renderQuery ⟨[q]⟩ conn = .ok q.query_text) := by
  constructor
  · intro conn q1 r1 qs rs h1 hne hall
    have hne2 : r1.data ≠ [] := by
      intro hd
      exact hne (String.ext (by rw [hd]))
    simp only [Query.renderMultiQuery, renderMultiQueryAux, h1,
      joinSemi_cons]
    simpa using renderMultiQueryAux_ok conn hall r1 hne2
  · intro q conn hq
    simp [MultiQuery.renderQuery, hq]

/-- Witness for C7 at a two-statement batch and a singleton unsafe
batch. -/
theorem c7_witness :
    Query.renderMultiQuery none [⟨"a", false, []⟩, ⟨"b", false, []⟩] =
      .ok (joinSemi ["a", "b"]) ∧
    MultiQuery.renderQuery ⟨[⟨"x; y", true, []⟩]⟩ none = .ok "x; y" :=
  ⟨c7_batch_join_amended.1 none ⟨"a", false, []⟩ "a" [⟨"b", false, []⟩]
      ["b"] rfl (by decide) (List.Forall₂.cons rfl List.Forall₂.nil),
   c7_batch_join_amended.2 ⟨"x; y", true, []⟩ none rfl⟩

/-- Counterexample to C7 as stated: when the first statement renders to
the empty string, no `";"` separator is emitted before the second
statement, so the output differs from the claimed join formula. -/
theorem c7_counterexample :
    Query.renderMultiQuery none [⟨"", false, []⟩, ⟨"x", false, []⟩] =
      .ok "x" ∧
    joinSemi ["", "x"] = ";x" ∧
    ("x" : String) ≠ ";x" :=
  ⟨rfl, rfl, by decide⟩

/-- Claim C8 (amended): `%Q` emits the value's display-string coercion
raw and unescaped (no quoting, no escaping, independent of the
connection) for the kinds that have one — Str, Int, Double, Bool;
contrary to the claim as stated, a value of any other kind — including a
trusted raw sub-statement, and Null — has no display-string coercion and
fails with the conversion error (see `c8_counterexample`). -/
theorem c8_raw_emission_amended :
    (∀ (conn : Option MYSQL) (s : String),
      Query.render ⟨"%Q", false, [.string s]⟩ conn = .ok s) ∧
    (∀ (conn : Option MYSQL) (i : Int),
      Query.render ⟨"%Q", false, [.int i]⟩ conn = .ok (toString i)) ∧
    (∀ (conn : Option MYSQL) (r : String),
      Query.render ⟨"%Q", false, [.double r]⟩ conn = .ok r) ∧
    (∀ (conn : Option MYSQL) (b : Bool),
      Query.render ⟨"%Q", false, [.bool b]⟩ conn =
        .ok (if b then "1" else "0")) ∧
    (∀ conn : Option MYSQL,
      Query.render ⟨"%Q", false, [.query]⟩ conn =
        .error .unsupportedConversion) ∧
    (∀ conn : Option MYSQL,
      Query.render ⟨"%Q", false, [.null]⟩ conn =
        .error .unsupportedConversion) := by
  refine ⟨?_, ?_, ?_, ?_, fun conn => rfl, fun conn => rfl⟩
  · intro conn s
    simp +decide [Query.render, Query.renderWith, findDangerous, scan,
      QueryArgument.asString]
  · intro conn i
    simp +decide [Query.render, Query.renderWith, findDangerous, scan,
      QueryArgument.asString]
  · intro conn r
    simp +decide [Query.render, Query.renderWith, findDangerous, scan,
      QueryArgument.asString]
  · intro conn b
    cases b <;>
      simp +decide [Query.render, Query.renderWith, findDangerous, scan,
        QueryArgument.asString]

/-- Counterexample to C8 as stated: a raw sub-statement argument under
`%Q` is not emitted — its display-string coercion throws. -/
theorem c8_counterexample :
    Query.render ⟨"%Q", false, [.query]⟩ none =
      .error .unsupportedConversion := rfl

/-- Claim C9: every argument-consuming specifier advances to the next
argument in order; reaching one with the argument list exhausted fails
with the too-few-parameters error at the specifier's offset (for any
specifier byte other than `%`), and arguments left unconsumed after the
scan fail with the too-many-parameters error; in particular `"%d %d"`
with one argument fails too-few at offset 4 and `"%d"` with two
arguments fails too-many. -/
theorem c9_argument_consumption :
    (∀ (conn : Option MYSQL) (rest : List Char) (idx : Nat) (c : Char),
      c ≠ '%' →
      scan conn ('%' :: c :: rest) idx [] =
        .error (.tooFewParameters (idx + 1))) ∧
    (∀ (conn : Option MYSQL) (a : Int),
      Query.render ⟨"%d %d", false, [.int a]⟩ conn =
        .error (.tooFewParameters 4)) ∧
    (∀ (conn : Option MYSQL) (a b : Int),
      Query.render ⟨"%d", false, [.int a, .int b]⟩ conn =
        .error (.tooManyParameters 0)) ∧
    (∀ (a : Int) (s : String),
      Query.render ⟨"%d%s", false, [.int a, .string s]⟩ none =
        .ok (toString a ++ "\"" ++ s ++ "\"")) := by
  refine ⟨?_, ?_, ?_, ?_⟩
  · intro conn rest idx c hc
    simp +decide [scan, hc]
  · intro conn a
    simp +decide [Query.render, Query.renderWith, findDangerous, scan,
      appendValue]
  · intro conn a b
    simp +decide [Query.render, Query.renderWith, findDangerous, scan,
      appendValue]
  · intro a s
    simp +decide [Query.render, Query.renderWith, findDangerous, scan,
      appendValue, appendEscapedString, String.append_assoc]

/-- Witness for C9: the unknown specifier `%Z` with no arguments fails
too-few-parameters in the scan. -/
theorem c9_witness :
    scan none ['%', 'Z'] 0 [] = .error (.tooFewParameters 1) :=
  c9_argument_consumption.1 none [] 0 'Z' (by decide)

/-- Claim C10 (amended): the argument-exhaustion check runs before the
specifier letter is validated — with an exhausted argument list, `%`
followed by any byte other than `%` and other than the four dangerous
bytes fails with too-few-parameters (never unknown-specifier), while
`%%` consumes no argument and renders a literal `%`; contrary to the
claim as stated, a dangerous byte after `%` fails earlier, in the
pre-scan, with the dangerous-character error (see
`c10_counterexample`). -/
theorem c10_exhaustion_first_amended :
    (∀ (conn : Option MYSQL) (c : Char), c ≠ '%' →
      ¬(c = ';' ∨ c = '\x27' ∨ c = '"' ∨ c = '\x60') →
      Query.render ⟨⟨['%', c]⟩, false, []⟩ conn =
        .error (.tooFewParameters 1)) ∧
    (∀ conn : Option MYSQL,
      Query.render ⟨"%%", false, []⟩ conn = .ok "%") := by
  constructor
  · intro conn c hc hd
    simp +decide [Query.render, Query.renderWith, findDangerous, scan,
      hc, hd]
  · intro conn
    simp +decide [Query.render, Query.renderWith, findDangerous, scan]

/-- Witness for C10 at the unknown specifier byte `Z`. -/
theorem c10_witness :
    Query.render ⟨⟨['%', 'Z']⟩, false, []⟩ none =
      .error (.tooFewParameters 1) :=
  c10_exhaustion_first_amended.1 none 'Z' (by decide) (by decide)

/-- Counterexample to C10 as stated: `%` followed by the dangerous byte
`;` with zero arguments fails with the dangerous-character error, not
too-few-parameters. -/
theorem c10_counterexample :
    Query.render ⟨"%;", false, []⟩ none =
      .error (.dangerousCharacter 1) := rfl

end Squangle

